import Mathlib

/-!
Shallow embedding of the Ai-LMS frontend client
(src/frontend/src/services/api.ts, src/frontend/src/pages/EmailAnalysis.tsx,
src/frontend/src/pages/LifeBalance.tsx).

The token store models localStorage restricted to its two keys
(access_token, refresh_token).  The axios instance with its request and
response interceptors is modelled as the state-passing function `apiRun`,
parameterised by an environment giving the backend's response to each
dispatched request and to the refresh call.  A ghost trace of network
calls is threaded through the state so that call counts (refresh attempts,
dispatches) can be stated.
-/

namespace AiLMS

/-- localStorage restricted to the two keys used by the client:
access_token and refresh_token. -/
structure Store where
  access : Option String
  refresh : Option String
deriving DecidableEq

/-- The request headers the client manipulates (only Authorization). -/
structure Headers where
  authorization : Option String
deriving DecidableEq

/-- An axios request config: method, url, JSON body (keys mapped to
possibly-null string values), headers, and the one-shot retried marker
stored on the config object. -/
structure Request where
  method : String
  url : String
  body : List (String × Option String)
  headers : Headers
  retry : Bool
deriving DecidableEq

/-- An axios rejection: either an HTTP error carrying a response with a
status, or a transport failure whose error object carries no response. -/
inductive HttpError where
  | http (status : Nat)
  | transport
deriving DecidableEq

/-- The observable outcome of one client call: a fulfilled promise with
data, a rejection with an HttpError, or a thrown TypeError (reading
.status off an undefined response inside the interceptor). -/
inductive ApiResult (α : Type) where
  | ok (data : α)
  | reject (e : HttpError)
  | typeError
deriving DecidableEq

/-- Ghost trace entry: a dispatch through the api instance (with the
instance's configured base URL) or a bare axios.post (no base URL
configured on the default instance). -/
inductive Call where
  | viaApi (baseURL : String) (req : Request)
  | rawPost (baseURL : Option String) (method : String) (url : String)
      (body : List (String × Option String))
deriving DecidableEq

/-- Mutable client-side state: the token store, the value assigned to
window.location.href (if any), and the ghost trace of network calls. -/
structure St where
  store : Store
  location : Option String
  calls : List Call
deriving DecidableEq

/-- The environment: the REACT_APP_API_URL env var, the backend's
response to a request dispatched through the api instance, and the
backend's response to the refresh call (as a function of the
refresh_token body value; .ok gives response.data.access_token). -/
structure Env (α : Type) where
  apiUrl : Option String
  send : Request → Except HttpError α
  refreshResponse : Option String → Except HttpError String

/-- The default base URL from axios.create. -/
def defaultApiUrl : String := "http://localhost:8000"

/-- process.env.REACT_APP_API_URL or the default; JS `or` treats the
empty string as falsy. -/
def apiBaseURL (apiUrl : Option String) : String :=
  match apiUrl with
  | some s => if s = "" then defaultApiUrl else s
  | none => defaultApiUrl

/-- The Bearer template string. -/
def bearer (token : String) : String := "Bearer " ++ token

/-- The request interceptor (api.ts lines 35-46): read access_token from
the store; if present, set config.headers.Authorization; otherwise leave
the config unchanged. -/
def attachAuth (store : Store) (config : Request) : Request :=
  match store.access with
  | some token => { config with headers := { authorization := some (bearer token) } }
  | none => config

@[simp] theorem attachAuth_retry (s : Store) (r : Request) :
    (attachAuth s r).retry = r.retry := by
  unfold attachAuth
  cases s.access <;> rfl

@[simp] theorem attachAuth_method (s : Store) (r : Request) :
    (attachAuth s r).method = r.method := by
  unfold attachAuth
  cases s.access <;> rfl

@[simp] theorem attachAuth_url (s : Store) (r : Request) :
    (attachAuth s r).url = r.url := by
  unfold attachAuth
  cases s.access <;> rfl

/-- The ghost record of the bare axios.post to the refresh endpoint
(api.ts line 59): no base URL configured on the default axios instance,
body left brace refresh_token: value right brace. -/
def refreshCall (refreshToken : Option String) : Call :=
  Call.rawPost none "POST" "/api/auth/refresh" [("refresh_token", refreshToken)]

/-- One client call through the api instance (api.ts lines 27-74):
request interceptor, dispatch, then the response interceptor's error
handler.  On a 401 whose config is not yet marked retried, the handler
marks it, reads the refresh token, posts to the refresh endpoint with it,
and on success stores the new access token, rewrites the Authorization
header, and re-enters the client with the marked config; on refresh
failure it clears both tokens, assigns /login to location, and rejects
with the refresh error.  A transport error (no response) makes the
handler itself throw a TypeError when it reads error.response.status. -/
def apiRun {α : Type} (env : Env α) (st : St) (req : Request) : ApiResult α × St :=
  let sent := attachAuth st.store req
  let st1 : St := { st with calls := st.calls ++ [Call.viaApi (apiBaseURL env.apiUrl) sent] }
  match env.send sent with
  | Except.ok d => (ApiResult.ok d, st1)
  | Except.error HttpError.transport => (ApiResult.typeError, st1)
  | Except.error (HttpError.http status) =>
    if h : status = 401 ∧ sent.retry = false then
      let originalRequest : Request := { sent with retry := true }
      let refreshToken := st1.store.refresh
      let st2 : St := { st1 with calls := st1.calls ++ [refreshCall refreshToken] }
      match env.refreshResponse refreshToken with
      | Except.ok access_token =>
        let st3 : St := { st2 with store := { st2.store with access := some access_token } }
        apiRun env st3 { originalRequest with headers := { authorization := some (bearer access_token) } }
      | Except.error err =>
        let st4 : St := { st2 with store := ⟨none, none⟩, location := some "/login" }
        (ApiResult.reject err, st4)
    else
      (ApiResult.reject (HttpError.http status), st1)
termination_by (if req.retry then 0 else 1)
decreasing_by
  have hr : req.retry = false := by
    rw [← attachAuth_retry st.store req]
    exact h.2
  simp [hr]

/-- Whether a trace entry is a dispatch through the api instance. -/
def Call.isViaApi : Call → Bool
  | Call.viaApi _ _ => true
  | _ => false

/-- Whether a trace entry is a bare axios.post (in this client, only the
refresh endpoint is called that way). -/
def Call.isRawPost : Call → Bool
  | Call.rawPost _ _ _ _ => true
  | _ => false

/-- The base URL a trace entry was resolved against (none when no base
URL is configured on the dispatching instance). -/
def Call.baseURLOpt : Call → Option String
  | Call.viaApi b _ => some b
  | Call.rawPost b _ _ _ => b

/-- Number of dispatches through the api instance in a trace. -/
def countApiSends (cs : List Call) : Nat := (cs.filter Call.isViaApi).length

/-- Number of refresh posts (bare axios.post calls) in a trace. -/
def countRefreshPosts (cs : List Call) : Nat := (cs.filter Call.isRawPost).length

/-- The request auth.logout builds (api.ts line 90): POST
/api/auth/logout with the stored refresh token as body. -/
def logoutRequest (refreshToken : Option String) : Request :=
  { method := "POST", url := "/api/auth/logout",
    body := [("refresh_token", refreshToken)],
    headers := { authorization := none }, retry := false }

/-- auth.logout (api.ts lines 88-93): read the refresh token, await the
logout call; only when it fulfils are both tokens removed (the await
rethrows on rejection, skipping the removeItem lines). -/
def logout {α : Type} (env : Env α) (st : St) : ApiResult α × St :=
  let refreshToken := st.store.refresh
  match apiRun env st (logoutRequest refreshToken) with
  | (ApiResult.ok d, st') =>
    (ApiResult.ok d, { st' with store := { access := none, refresh := none } })
  | (r, st') => (r, st')

/-- Whether a client-call outcome is a fulfilled promise. -/
def ApiResult.isOk {α : Type} : ApiResult α → Bool
  | ApiResult.ok _ => true
  | _ => false

/-- A plain GET request as built by auth.getCurrentUser (api.ts line 96),
used as a concrete request in witnesses. -/
def getMeRequest : Request :=
  { method := "GET", url := "/api/auth/me", body := [],
    headers := { authorization := none }, retry := false }

/-! Page models.  Each handleAnalyze issues its facade calls through
Promise.all; the model takes the settled outcome of each call as input
(the facades pass the HTTP client's result through unchanged) and maps
the page state before the action to the page state after it. -/

/-- response.data of /api/email/summarize. -/
structure SummarizeResponse where
  summary : String
deriving DecidableEq

/-- response.data of /api/email/sentiment. -/
structure SentimentResponse where
  sentiment : String
deriving DecidableEq

/-- response.data of /api/email/priority. -/
structure PriorityResponse where
  priority : String
deriving DecidableEq

/-- response.data of /api/email/actions. -/
structure ActionsResponse where
  action_items : List String
deriving DecidableEq

/-- response.data of /api/email/replies. -/
structure RepliesResponse where
  reply_suggestions : List String
deriving DecidableEq

/-- EmailAnalysis.tsx AnalysisResult, as populated by setResult. -/
structure EmailAnalysisResult where
  summary : String
  sentiment : String
  priority : String
  action_items : List String
  reply_suggestions : List String
deriving DecidableEq

/-- EmailAnalysis.tsx component state touched by handleAnalyze. -/
structure EmailPageState where
  loading : Bool
  result : Option EmailAnalysisResult
  error : Option String
deriving DecidableEq

/-- The settled outcomes of the five parallel email facade calls. -/
structure EmailOutcomes (ε : Type) where
  summarize : Except ε SummarizeResponse
  sentiment : Except ε SentimentResponse
  priority : Except ε PriorityResponse
  actions : Except ε ActionsResponse
  replies : Except ε RepliesResponse

/-- The one generic failure message of EmailAnalysis.tsx (line 54). -/
def emailFailureMessage : String := "Failed to analyze email. Please try again."

/-- EmailAnalysis.handleAnalyze (lines 26-59): set loading, clear error,
await Promise.all of the five calls; on success set the combined result,
on any rejection set the generic error message; finally clear loading. -/
def emailHandleAnalyze {ε : Type} (o : EmailOutcomes ε) (s : EmailPageState) :
    EmailPageState :=
  let s1 : EmailPageState := { s with loading := true, error := none }
  match o.summarize, o.sentiment, o.priority, o.actions, o.replies with
  | Except.ok a, Except.ok b, Except.ok c, Except.ok d, Except.ok e =>
    { s1 with
      result := some
        { summary := a.summary, sentiment := b.sentiment,
          priority := c.priority, action_items := d.action_items,
          reply_suggestions := e.reply_suggestions },
      loading := false }
  | _, _, _, _, _ =>
    { s1 with error := some emailFailureMessage, loading := false }

/-- Whether Promise.all over the five email calls rejects (some call
failed). -/
def emailAnyFailed {ε : Type} (o : EmailOutcomes ε) : Bool :=
  match o.summarize, o.sentiment, o.priority, o.actions, o.replies with
  | Except.ok _, Except.ok _, Except.ok _, Except.ok _, Except.ok _ => false
  | _, _, _, _, _ => true

/-- response.data of /api/life-balance/scores. -/
structure ScoresResponse where
  overall_score : Rat
deriving DecidableEq

/-- response.data of /api/life-balance/insights. -/
structure InsightsResponse where
  insights : List String
deriving DecidableEq

/-- response.data of /api/life-balance/recommendations. -/
structure RecommendationsResponse where
  recommendations : List String
deriving DecidableEq

/-- response.data of /api/life-balance/optimize. -/
structure OptimizeResponse where
  optimized_schedule : String
deriving DecidableEq

/-- LifeBalance.tsx AnalysisResult, as populated by setResult. -/
structure LifeBalanceResult where
  balance_score : Rat
  insights : List String
  recommendations : List String
  optimized_schedule : String
deriving DecidableEq

/-- LifeBalance.tsx component state touched by handleAnalyze. -/
structure LifePageState where
  loading : Bool
  result : Option LifeBalanceResult
  error : Option String
deriving DecidableEq

/-- The settled outcomes of the four parallel life-balance facade calls. -/
structure LifeOutcomes (ε : Type) where
  scores : Except ε ScoresResponse
  insights : Except ε InsightsResponse
  recommendations : Except ε RecommendationsResponse
  optimize : Except ε OptimizeResponse

/-- The one generic failure message of LifeBalance.tsx (line 54). -/
def lifeFailureMessage : String := "Failed to analyze life balance. Please try again."

/-- LifeBalance.handleAnalyze (lines 29-59): set loading, clear error,
await Promise.all of the four calls; on success set the combined result,
on any rejection set the generic error message; finally clear loading. -/
def lifeHandleAnalyze {ε : Type} (o : LifeOutcomes ε) (s : LifePageState) :
    LifePageState :=
  let s1 : LifePageState := { s with loading := true, error := none }
  match o.scores, o.insights, o.recommendations, o.optimize with
  | Except.ok a, Except.ok b, Except.ok c, Except.ok d =>
    { s1 with
      result := some
        { balance_score := a.overall_score, insights := b.insights,
          recommendations := c.recommendations,
          optimized_schedule := d.optimized_schedule },
      loading := false }
  | _, _, _, _ =>
    { s1 with error := some lifeFailureMessage, loading := false }

/-- Whether Promise.all over the four life-balance calls rejects. -/
def lifeAnyFailed {ε : Type} (o : LifeOutcomes ε) : Bool :=
  match o.scores, o.insights, o.recommendations, o.optimize with
  | Except.ok _, Except.ok _, Except.ok _, Except.ok _ => false
  | _, _, _, _ => true

/-- JSX truthiness of the error banner guard: rendered when error is a
non-empty string. -/
def showsErrorBanner (e : Option String) : Bool :=
  match e with
  | some m => !(m == "")
  | none => false

/-- JSX truthiness of the result block guard: rendered when result is a
non-null object. -/
def showsResultBlock {ρ : Type} (r : Option ρ) : Bool := r.isSome

/-- The trace entry for one dispatch through the api instance. -/
def dispatched {α : Type} (env : Env α) (st : St) (req : Request) : Call :=
  Call.viaApi (apiBaseURL env.apiUrl) (attachAuth st.store req)

/-- The state after a first 401 and a successful refresh: new access
token stored, trace extended by the first dispatch and the refresh post. -/
def refreshedSt {α : Type} (env : Env α) (st : St) (req : Request) (tok : String) : St :=
  { store := { access := some tok, refresh := st.store.refresh },
    location := st.location,
    calls := st.calls ++ [dispatched env st req, refreshCall st.store.refresh] }

/-- The config re-dispatched after a successful refresh: the original
(post-interceptor) config, marked retried, with the Authorization header
rewritten to the new bearer token. -/
def retriedRequest (st : St) (req : Request) (tok : String) : Request :=
  { attachAuth st.store req with
    retry := true,
    headers := { authorization := some (bearer tok) } }

/-- The state after a first 401 whose refresh fails: both tokens
removed, location assigned /login, trace extended by the dispatch and
the refresh post. -/
def sessionExpiredSt {α : Type} (env : Env α) (st : St) (req : Request) : St :=
  { store := { access := none, refresh := none },
    location := some "/login",
    calls := st.calls ++ [dispatched env st req, refreshCall st.store.refresh] }

/-- How the response interceptor forwards a response when its 401 branch
is not taken: fulfilments and HTTP rejections pass through, a transport
error becomes the interceptor's own TypeError. -/
def passThrough {α : Type} (o : Except HttpError α) : ApiResult α :=
  match o with
  | Except.ok d => ApiResult.ok d
  | Except.error HttpError.transport => ApiResult.typeError
  | Except.error (HttpError.http s) => ApiResult.reject (HttpError.http s)

/-- Closed form of a client call whose config is already marked retried:
the 401 branch is skipped, so the response is passed through (fulfilment,
rejection, or the TypeError on a transport error) after one dispatch. -/
theorem apiRun_retry_true {α : Type} (env : Env α) (st : St) (req : Request)
    (h : req.retry = true) :
    apiRun env st req =
      (passThrough (env.send (attachAuth st.store req)),
       { st with calls := st.calls ++ [dispatched env st req] }) := by
  rw [apiRun]
  cases hs : env.send (attachAuth st.store req) with
  | ok d => simp [dispatched, passThrough, hs]
  | error e =>
    cases e with
    | transport => simp [dispatched, passThrough, hs]
    | http s =>
      simp only
      rw [dif_neg]
      · simp [dispatched, passThrough, hs]
      · simp [h]

/-- A fulfilled dispatch is returned as-is after one trace entry. -/
theorem apiRun_ok {α : Type} (env : Env α) (st : St) (req : Request) (d : α)
    (hs : env.send (attachAuth st.store req) = Except.ok d) :
    apiRun env st req =
      (ApiResult.ok d, { st with calls := st.calls ++ [dispatched env st req] }) := by
  rw [apiRun]
  rw [hs]
  simp [dispatched]

/-- A transport error (error.response undefined) makes the response
interceptor throw a TypeError. -/
theorem apiRun_transport {α : Type} (env : Env α) (st : St) (req : Request)
    (hs : env.send (attachAuth st.store req) = Except.error HttpError.transport) :
    apiRun env st req =
      (ApiResult.typeError, { st with calls := st.calls ++ [dispatched env st req] }) := by
  rw [apiRun]
  rw [hs]
  simp [dispatched]

/-- A non-401 HTTP error is rejected unchanged. -/
theorem apiRun_http_non401 {α : Type} (env : Env α) (st : St) (req : Request)
    (s : Nat) (hne : s ≠ 401)
    (hs : env.send (attachAuth st.store req) = Except.error (HttpError.http s)) :
    apiRun env st req =
      (ApiResult.reject (HttpError.http s),
       { st with calls := st.calls ++ [dispatched env st req] }) := by
  rw [apiRun]
  rw [hs]
  simp only
  rw [dif_neg]
  · simp [dispatched]
  · simp [hne]

/-- A first 401 whose refresh call succeeds: the new access token is
stored, the Authorization header rewritten, and the client re-entered on
the config marked retried. -/
theorem apiRun_401_refresh_ok {α : Type} (env : Env α) (st : St) (req : Request)
    (tok : String)
    (hr : req.retry = false)
    (h401 : env.send (attachAuth st.store req) = Except.error (HttpError.http 401))
    (hok : env.refreshResponse st.store.refresh = Except.ok tok) :
    apiRun env st req =
      apiRun env (refreshedSt env st req tok) (retriedRequest st req tok) := by
  conv_lhs => rw [apiRun]
  rw [h401]
  simp only
  rw [dif_pos (by simp [hr])]
  simp only [hok]
  simp [refreshedSt, retriedRequest, dispatched]

/-- A first 401 whose refresh call fails: both tokens are cleared,
location is set to /login, and the refresh error is rejected. -/
theorem apiRun_401_refresh_error {α : Type} (env : Env α) (st : St) (req : Request)
    (e : HttpError)
    (hr : req.retry = false)
    (h401 : env.send (attachAuth st.store req) = Except.error (HttpError.http 401))
    (herr : env.refreshResponse st.store.refresh = Except.error e) :
    apiRun env st req =
      (ApiResult.reject e, sessionExpiredSt env st req) := by
  conv_lhs => rw [apiRun]
  rw [h401]
  simp only
  rw [dif_pos (by simp [hr])]
  simp only [herr]
  simp [sessionExpiredSt, dispatched]


@[simp] theorem countApiSends_append (a b : List Call) :
    countApiSends (a ++ b) = countApiSends a + countApiSends b := by
  simp [countApiSends, List.filter_append]

@[simp] theorem countRefreshPosts_append (a b : List Call) :
    countRefreshPosts (a ++ b) = countRefreshPosts a + countRefreshPosts b := by
  simp [countRefreshPosts, List.filter_append]

@[simp] theorem countApiSends_nil : countApiSends [] = 0 := rfl

@[simp] theorem countRefreshPosts_nil : countRefreshPosts [] = 0 := rfl

@[simp] theorem countApiSends_cons (c : Call) (cs : List Call) :
    countApiSends (c :: cs) = (if c.isViaApi = true then 1 else 0) + countApiSends cs := by
  simp only [countApiSends, List.filter_cons]
  by_cases h : Call.isViaApi c = true <;> simp [h, Nat.add_comm]

@[simp] theorem countRefreshPosts_cons (c : Call) (cs : List Call) :
    countRefreshPosts (c :: cs) = (if c.isRawPost = true then 1 else 0) + countRefreshPosts cs := by
  simp only [countRefreshPosts, List.filter_cons]
  by_cases h : Call.isRawPost c = true <;> simp [h, Nat.add_comm]

@[simp] theorem isViaApi_dispatched {α : Type} (env : Env α) (st : St) (req : Request) :
    (dispatched env st req).isViaApi = true := rfl

@[simp] theorem isRawPost_dispatched {α : Type} (env : Env α) (st : St) (req : Request) :
    (dispatched env st req).isRawPost = false := rfl

@[simp] theorem isViaApi_refreshCall (t : Option String) :
    (refreshCall t).isViaApi = false := rfl

@[simp] theorem isRawPost_refreshCall (t : Option String) :
    (refreshCall t).isRawPost = true := rfl

@[simp] theorem refreshedSt_calls {α : Type} (env : Env α) (st : St) (req : Request) (tok : String) :
    (refreshedSt env st req tok).calls =
      st.calls ++ [dispatched env st req, refreshCall st.store.refresh] := rfl

@[simp] theorem sessionExpiredSt_calls {α : Type} (env : Env α) (st : St) (req : Request) :
    (sessionExpiredSt env st req).calls =
      st.calls ++ [dispatched env st req, refreshCall st.store.refresh] := rfl

@[simp] theorem retriedRequest_retry (st : St) (req : Request) (tok : String) :
    (retriedRequest st req tok).retry = true := rfl

/-- Trace bound of one client call: however the backend answers, at most
one refresh post and at most two dispatches are added to the trace. -/
theorem apiRun_trace_bound {α : Type} (env : Env α) (st : St) (req : Request) :
    countRefreshPosts (apiRun env st req).2.calls ≤ countRefreshPosts st.calls + 1 ∧
    countApiSends (apiRun env st req).2.calls ≤ countApiSends st.calls + 2 := by
  cases hretry : req.retry with
  | true =>
    rw [apiRun_retry_true env st req hretry]
    simp
  | false =>
    cases hs : env.send (attachAuth st.store req) with
    | ok d =>
      rw [apiRun_ok env st req d hs]
      simp
    | error e =>
      cases e with
      | transport =>
        rw [apiRun_transport env st req hs]
        simp
      | http s =>
        by_cases h401 : s = 401
        · subst h401
          cases hrf : env.refreshResponse st.store.refresh with
          | ok tok =>
            rw [apiRun_401_refresh_ok env st req tok hretry hs hrf]
            rw [apiRun_retry_true _ _ _ (retriedRequest_retry st req tok)]
            simp
          | error e2 =>
            rw [apiRun_401_refresh_error env st req e2 hretry hs hrf]
            simp
        · rw [apiRun_http_non401 env st req s h401 hs]
          simp


/-- A concrete backend that answers every dispatch with 401 and every
refresh post with 400, used as witness input. -/
def alwaysUnauthorizedEnv : Env Nat :=
  { apiUrl := none,
    send := fun _ => Except.error (HttpError.http 401),
    refreshResponse := fun _ => Except.error (HttpError.http 400) }

/-- A fresh client state: no tokens, no redirect, empty trace. -/
def emptySt : St :=
  { store := { access := none, refresh := none }, location := none, calls := [] }

/-- The GET /api/auth/me config already marked retried. -/
def retriedGetMe : Request := { getMeRequest with retry := true }

/-- C1: for any single logical request through the client, at most one
refresh post and at most one retried dispatch (two dispatches in total)
occur, whatever the backend answers; and a request whose retried marker
is already set that receives another 401 is rejected with that error and
causes no refresh post at all. -/
theorem refresh_and_retry_at_most_once {α : Type} (env : Env α) (st : St) (req : Request) :
    countRefreshPosts (apiRun env st req).2.calls ≤ countRefreshPosts st.calls + 1 ∧
    countApiSends (apiRun env st req).2.calls ≤ countApiSends st.calls + 2 ∧
    (req.retry = true →
      ∀ s : Nat, env.send (attachAuth st.store req) = Except.error (HttpError.http s) →
        (apiRun env st req).1 = ApiResult.reject (HttpError.http s) ∧
        countRefreshPosts (apiRun env st req).2.calls = countRefreshPosts st.calls) := by
  obtain ⟨h1, h2⟩ := apiRun_trace_bound env st req
  refine ⟨h1, h2, ?_⟩
  intro hretry s hs
  rw [apiRun_retry_true env st req hretry]
  simp [passThrough, hs]

/-- Witness for C1: a retried request meeting a second 401 in a concrete
environment is rejected with the 401 and adds no refresh post. -/
theorem refresh_and_retry_at_most_once_witness :
    countRefreshPosts (apiRun alwaysUnauthorizedEnv emptySt retriedGetMe).2.calls ≤
      countRefreshPosts emptySt.calls + 1 ∧
    countApiSends (apiRun alwaysUnauthorizedEnv emptySt retriedGetMe).2.calls ≤
      countApiSends emptySt.calls + 2 ∧
    ((apiRun alwaysUnauthorizedEnv emptySt retriedGetMe).1 = ApiResult.reject (HttpError.http 401) ∧
      countRefreshPosts (apiRun alwaysUnauthorizedEnv emptySt retriedGetMe).2.calls =
        countRefreshPosts emptySt.calls) := by
  obtain ⟨h1, h2, h3⟩ :=
    refresh_and_retry_at_most_once alwaysUnauthorizedEnv emptySt retriedGetMe
  exact ⟨h1, h2, h3 rfl 401 rfl⟩


/-- C7: over the request interceptor, a request that carries no
Authorization header of its own is dispatched without one when no access
token is stored, and with the bearer header of the stored access token
otherwise. -/
theorem auth_header_attachment (store : Store) (req : Request)
    (h : req.headers.authorization = none) :
    (store.access = none → (attachAuth store req).headers.authorization = none) ∧
    (∀ t : String, store.access = some t →
      (attachAuth store req).headers.authorization = some (bearer t)) := by
  constructor
  · intro ha
    simp [attachAuth, ha, h]
  · intro t ha
    simp [attachAuth, ha]

/-- Witness for C7 on the GET /api/auth/me config with an empty store
and with a store holding an access token. -/
theorem auth_header_attachment_witness :
    (attachAuth { access := none, refresh := none } getMeRequest).headers.authorization = none ∧
    (attachAuth { access := some "tok0", refresh := none } getMeRequest).headers.authorization =
      some (bearer "tok0") := by
  constructor
  · exact (auth_header_attachment { access := none, refresh := none } getMeRequest rfl).1 rfl
  · exact (auth_header_attachment { access := some "tok0", refresh := none } getMeRequest rfl).2 "tok0" rfl

/-- C9: an error with no response object (pure transport failure) makes
the response interceptor itself throw a TypeError when it reads
error.response.status, instead of rejecting with the transport error. -/
theorem transport_error_throws_typeError {α : Type} (env : Env α) (st : St) (req : Request)
    (h : env.send (attachAuth st.store req) = Except.error HttpError.transport) :
    (apiRun env st req).1 = ApiResult.typeError ∧
    (apiRun env st req).1 ≠ ApiResult.reject HttpError.transport := by
  rw [apiRun_transport env st req h]
  simp

/-- A concrete backend whose every dispatch fails at the transport
level. -/
def transportFailEnv : Env Nat :=
  { apiUrl := none,
    send := fun _ => Except.error HttpError.transport,
    refreshResponse := fun _ => Except.error (HttpError.http 400) }

/-- Witness for C9 at a concrete transport failure. -/
theorem transport_error_throws_typeError_witness :
    (apiRun transportFailEnv emptySt getMeRequest).1 = ApiResult.typeError ∧
    (apiRun transportFailEnv emptySt getMeRequest).1 ≠ ApiResult.reject HttpError.transport :=
  transport_error_throws_typeError transportFailEnv emptySt getMeRequest rfl

/-- C3 (amended): when the refresh call after a first 401 fails, both
stored tokens are cleared, the browser is redirected to the login entry
point, and the refresh call's error (not the original request's) is the
error propagated to the caller. -/
theorem refresh_failure_clears_and_redirects {α : Type} (env : Env α) (st : St) (req : Request)
    (e : HttpError)
    (hr : req.retry = false)
    (h401 : env.send (attachAuth st.store req) = Except.error (HttpError.http 401))
    (herr : env.refreshResponse st.store.refresh = Except.error e) :
    (apiRun env st req).2.store.access = none ∧
    (apiRun env st req).2.store.refresh = none ∧
    (apiRun env st req).2.location = some "/login" ∧
    (apiRun env st req).1 = ApiResult.reject e := by
  rw [apiRun_401_refresh_error env st req e hr h401 herr]
  simp [sessionExpiredSt]

/-- A concrete backend answering 401 to every dispatch and 500 to the
refresh post. -/
def refresh500Env : Env Nat :=
  { apiUrl := none,
    send := fun _ => Except.error (HttpError.http 401),
    refreshResponse := fun _ => Except.error (HttpError.http 500) }

/-- A client state holding both tokens, with an empty trace. -/
def tokenSt : St :=
  { store := { access := some "acc", refresh := some "ref" }, location := none, calls := [] }

/-- Witness for C3 (amended) at the concrete 401-then-500 environment. -/
theorem refresh_failure_clears_and_redirects_witness :
    (apiRun refresh500Env tokenSt getMeRequest).2.store.access = none ∧
    (apiRun refresh500Env tokenSt getMeRequest).2.store.refresh = none ∧
    (apiRun refresh500Env tokenSt getMeRequest).2.location = some "/login" ∧
    (apiRun refresh500Env tokenSt getMeRequest).1 = ApiResult.reject (HttpError.http 500) :=
  refresh_failure_clears_and_redirects refresh500Env tokenSt getMeRequest
    (HttpError.http 500) rfl rfl rfl

/-- C3 counterexample: at the same input the original request's error is
the 401, but the propagated error is the refresh call's 500, so the
original error is not what the caller receives. -/
theorem refresh_failure_original_error_cex :
    refresh500Env.send (attachAuth tokenSt.store getMeRequest) =
      Except.error (HttpError.http 401) ∧
    (apiRun refresh500Env tokenSt getMeRequest).1 = ApiResult.reject (HttpError.http 500) ∧
    (apiRun refresh500Env tokenSt getMeRequest).1 ≠ ApiResult.reject (HttpError.http 401) := by
  refine ⟨rfl, ?_, ?_⟩ <;>
    rw [apiRun_401_refresh_error refresh500Env tokenSt getMeRequest
      (HttpError.http 500) rfl rfl rfl] <;>
    simp

/-- C2 (amended): a first 401 with no refresh token stored does not
propagate the original error directly: the client still issues exactly
one refresh post, whose body carries a null refresh_token, and then
follows the usual refresh success/failure handling. -/
theorem missing_refresh_token_still_refreshes {α : Type} (env : Env α) (st : St) (req : Request)
    (hr : req.retry = false)
    (hnone : st.store.refresh = none)
    (h401 : env.send (attachAuth st.store req) = Except.error (HttpError.http 401)) :
    refreshCall none ∈ (apiRun env st req).2.calls ∧
    countRefreshPosts (apiRun env st req).2.calls = countRefreshPosts st.calls + 1 := by
  cases hrf : env.refreshResponse st.store.refresh with
  | ok tok =>
    rw [apiRun_401_refresh_ok env st req tok hr h401 hrf]
    rw [apiRun_retry_true _ _ _ (retriedRequest_retry st req tok)]
    simp [hnone]
  | error e =>
    rw [apiRun_401_refresh_error env st req e hr h401 hrf]
    simp [hnone]

/-- A client state with an access token but no refresh token. -/
def noRefreshSt : St :=
  { store := { access := some "acc", refresh := none }, location := none, calls := [] }

/-- Witness for C2 (amended) at a concrete 401 with no stored refresh
token. -/
theorem missing_refresh_token_still_refreshes_witness :
    refreshCall none ∈ (apiRun refresh500Env noRefreshSt getMeRequest).2.calls ∧
    countRefreshPosts (apiRun refresh500Env noRefreshSt getMeRequest).2.calls =
      countRefreshPosts noRefreshSt.calls + 1 :=
  missing_refresh_token_still_refreshes refresh500Env noRefreshSt getMeRequest rfl rfl rfl

/-- C2 counterexample: with no refresh token stored and a first 401, the
trace gains one refresh post (the claim requires zero) and the result is
the refresh call's rejection rather than the original 401 being the only
possible propagated error path. -/
theorem missing_refresh_token_cex :
    noRefreshSt.store.refresh = none ∧
    getMeRequest.retry = false ∧
    countRefreshPosts (apiRun refresh500Env noRefreshSt getMeRequest).2.calls = 1 ∧
    refreshCall none ∈ (apiRun refresh500Env noRefreshSt getMeRequest).2.calls := by
  refine ⟨rfl, rfl, ?_, ?_⟩ <;>
    rw [apiRun_401_refresh_error refresh500Env noRefreshSt getMeRequest
      (HttpError.http 500) rfl rfl rfl] <;>
    simp [noRefreshSt]


/-- After a successful refresh, re-running the request interceptor over
the retried config leaves it unchanged: the store now holds the new
token, so the header it attaches is the one already set. -/
theorem attachAuth_retriedRequest {α : Type} (env : Env α) (st : St) (req : Request)
    (tok : String) :
    attachAuth (refreshedSt env st req tok).store (retriedRequest st req tok) =
      retriedRequest st req tok := rfl

/-- C6: on a first 401 whose refresh call succeeds, the returned access
token is written to the store's access slot, the retried config carries
the bearer header of that new token, the original request is
re-dispatched exactly once (the trace gains exactly that one further
dispatch), and the retried dispatch's response is what the caller
receives (passed through the interceptor's non-401 path). -/
theorem refresh_success_retries_once {α : Type} (env : Env α) (st : St) (req : Request)
    (tok : String)
    (hr : req.retry = false)
    (h401 : env.send (attachAuth st.store req) = Except.error (HttpError.http 401))
    (hok : env.refreshResponse st.store.refresh = Except.ok tok) :
    (apiRun env st req).2.store.access = some tok ∧
    (retriedRequest st req tok).headers.authorization = some (bearer tok) ∧
    (apiRun env st req).2.calls =
      st.calls ++ [dispatched env st req, refreshCall st.store.refresh,
        dispatched env (refreshedSt env st req tok) (retriedRequest st req tok)] ∧
    (apiRun env st req).1 = passThrough (env.send (retriedRequest st req tok)) := by
  rw [apiRun_401_refresh_ok env st req tok hr h401 hok]
  rw [apiRun_retry_true _ _ _ (retriedRequest_retry st req tok)]
  refine ⟨rfl, rfl, ?_, ?_⟩
  · simp
  · rw [attachAuth_retriedRequest]

/-- A concrete backend that rejects the first dispatch with 401, fulfils
a retried dispatch, and fulfils the refresh post with a new token. -/
def refreshOkEnv : Env Nat :=
  { apiUrl := none,
    send := fun r => if r.retry then Except.ok 7 else Except.error (HttpError.http 401),
    refreshResponse := fun _ => Except.ok "newtok" }

/-- Witness for C6 at the concrete refresh-success environment. -/
theorem refresh_success_retries_once_witness :
    (apiRun refreshOkEnv tokenSt getMeRequest).2.store.access = some "newtok" ∧
    (retriedRequest tokenSt getMeRequest "newtok").headers.authorization =
      some (bearer "newtok") ∧
    (apiRun refreshOkEnv tokenSt getMeRequest).2.calls =
      tokenSt.calls ++ [dispatched refreshOkEnv tokenSt getMeRequest,
        refreshCall tokenSt.store.refresh,
        dispatched refreshOkEnv (refreshedSt refreshOkEnv tokenSt getMeRequest "newtok")
          (retriedRequest tokenSt getMeRequest "newtok")] ∧
    (apiRun refreshOkEnv tokenSt getMeRequest).1 =
      passThrough (refreshOkEnv.send (retriedRequest tokenSt getMeRequest "newtok")) :=
  refresh_success_retries_once refreshOkEnv tokenSt getMeRequest "newtok" rfl rfl rfl

/-- C5 (amended): the refresh call triggered by a first 401 is a POST to
the fixed path /api/auth/refresh with body refresh_token, but it is
issued through the default axios instance, which has no base URL
configured: it is not resolved under the api instance's configurable
base origin. -/
theorem refresh_post_shape {α : Type} (env : Env α) (st : St) (req : Request)
    (hr : req.retry = false)
    (h401 : env.send (attachAuth st.store req) = Except.error (HttpError.http 401)) :
    Call.rawPost none "POST" "/api/auth/refresh" [("refresh_token", st.store.refresh)] ∈
      (apiRun env st req).2.calls := by
  cases hrf : env.refreshResponse st.store.refresh with
  | ok tok =>
    rw [apiRun_401_refresh_ok env st req tok hr h401 hrf]
    rw [apiRun_retry_true _ _ _ (retriedRequest_retry st req tok)]
    simp [refreshCall]
  | error e =>
    rw [apiRun_401_refresh_error env st req e hr h401 hrf]
    simp [refreshCall]

/-- A concrete environment with the base origin configured through the
environment variable, answering 401 then failing the refresh with 500. -/
def prodEnv : Env Nat :=
  { apiUrl := some "https://api.example.com",
    send := fun _ => Except.error (HttpError.http 401),
    refreshResponse := fun _ => Except.error (HttpError.http 500) }

/-- Witness for C5 (amended) at the configured-origin environment. -/
theorem refresh_post_shape_witness :
    Call.rawPost none "POST" "/api/auth/refresh" [("refresh_token", some "ref")] ∈
      (apiRun prodEnv tokenSt getMeRequest).2.calls :=
  refresh_post_shape prodEnv tokenSt getMeRequest rfl rfl

/-- C5 counterexample: with the base origin configured, the original
request's dispatch is resolved under that origin but the refresh post
carries no base origin at all, so the refresh call is not resolved under
the same configurable base origin as every other backend call. -/
theorem refresh_not_under_base_origin_cex :
    apiBaseURL prodEnv.apiUrl = "https://api.example.com" ∧
    (apiRun prodEnv tokenSt getMeRequest).2.calls =
      [dispatched prodEnv tokenSt getMeRequest, refreshCall (some "ref")] ∧
    (dispatched prodEnv tokenSt getMeRequest).baseURLOpt = some "https://api.example.com" ∧
    (refreshCall (some "ref")).baseURLOpt = none ∧
    (refreshCall (some "ref")).baseURLOpt ≠ some (apiBaseURL prodEnv.apiUrl) := by
  refine ⟨by decide, ?_, by decide, by decide, by decide⟩
  rw [apiRun_401_refresh_error prodEnv tokenSt getMeRequest (HttpError.http 500) rfl rfl rfl]
  simp [tokenSt]

/-- C4 (amended): logout removes both tokens when its network call
fulfils; when the call rejects or throws, logout returns that outcome
with the state exactly as the failed call left it, so logout itself does
not clear the tokens on failure. -/
theorem logout_clears_only_on_success {α : Type} (env : Env α) (st : St) :
    ((apiRun env st (logoutRequest st.store.refresh)).1.isOk = true →
      (logout env st).2.store.access = none ∧ (logout env st).2.store.refresh = none) ∧
    ((apiRun env st (logoutRequest st.store.refresh)).1.isOk = false →
      logout env st = apiRun env st (logoutRequest st.store.refresh)) := by
  unfold logout
  rcases hx : apiRun env st (logoutRequest st.store.refresh) with ⟨r, st'⟩
  cases r <;> simp [ApiResult.isOk, hx]

/-- A concrete backend rejecting every dispatch with 500. -/
def http500Env : Env Nat :=
  { apiUrl := none,
    send := fun _ => Except.error (HttpError.http 500),
    refreshResponse := fun _ => Except.error (HttpError.http 400) }

/-- A concrete backend fulfilling every dispatch. -/
def okEnv : Env Nat :=
  { apiUrl := none,
    send := fun _ => Except.ok 0,
    refreshResponse := fun _ => Except.error (HttpError.http 400) }

/-- Witness for C4 (amended): a fulfilled logout clears both tokens; a
rejected logout leaves the failed call's state untouched. -/
theorem logout_clears_only_on_success_witness :
    ((logout okEnv tokenSt).2.store.access = none ∧
      (logout okEnv tokenSt).2.store.refresh = none) ∧
    logout http500Env tokenSt =
      apiRun http500Env tokenSt (logoutRequest tokenSt.store.refresh) := by
  constructor
  · exact (logout_clears_only_on_success okEnv tokenSt).1
      (by rw [apiRun_ok okEnv tokenSt (logoutRequest tokenSt.store.refresh) 0 rfl]; rfl)
  · exact (logout_clears_only_on_success http500Env tokenSt).2
      (by rw [apiRun_http_non401 http500Env tokenSt (logoutRequest tokenSt.store.refresh)
          500 (by decide) rfl]; rfl)

/-- C4 counterexample: when the logout network call is rejected with
500, both tokens are still present after logout returns. -/
theorem logout_failure_keeps_tokens_cex :
    (logout http500Env tokenSt).1 = ApiResult.reject (HttpError.http 500) ∧
    (logout http500Env tokenSt).2.store.access = some "acc" ∧
    (logout http500Env tokenSt).2.store.refresh = some "ref" := by
  have hx := apiRun_http_non401 http500Env tokenSt (logoutRequest tokenSt.store.refresh)
    500 (by decide) rfl
  unfold logout
  simp only [hx]
  simp [tokenSt]


theorem showsErrorBanner_emailMessage :
    showsErrorBanner (some emailFailureMessage) = true := by decide

theorem showsErrorBanner_lifeMessage :
    showsErrorBanner (some lifeFailureMessage) = true := by decide

/-- A failed email batch leaves the page with the generic message and
the previous result state. -/
theorem emailHandleAnalyze_failure {ε : Type} (o : EmailOutcomes ε) (s : EmailPageState)
    (ho : emailAnyFailed o = true) :
    emailHandleAnalyze o s =
      { loading := false, result := s.result, error := some emailFailureMessage } := by
  obtain ⟨a, b, c, d, e⟩ := o
  cases a <;> cases b <;> cases c <;> cases d <;> cases e <;>
    simp_all [emailHandleAnalyze, emailAnyFailed]

/-- A failed life-balance batch leaves the page with the generic message
and the previous result state. -/
theorem lifeHandleAnalyze_failure {ε : Type} (p : LifeOutcomes ε) (t : LifePageState)
    (hp : lifeAnyFailed p = true) :
    lifeHandleAnalyze p t =
      { loading := false, result := t.result, error := some lifeFailureMessage } := by
  obtain ⟨a, b, c, d⟩ := p
  cases a <;> cases b <;> cases c <;> cases d <;>
    simp_all [lifeHandleAnalyze, lifeAnyFailed]

/-- C8: on each analysis page, if any one of the concurrently issued
facade calls of one action rejects, the action ends with exactly the one
generic failure message in the error state and the result state exactly
as it was before the action: no partial result from the batch is stored
or rendered, whatever the other calls returned. -/
theorem batch_failure_single_message_no_partial {ε₁ ε₂ : Type}
    (o : EmailOutcomes ε₁) (p : LifeOutcomes ε₂)
    (s : EmailPageState) (t : LifePageState)
    (ho : emailAnyFailed o = true) (hp : lifeAnyFailed p = true) :
    emailHandleAnalyze o s =
      { loading := false, result := s.result, error := some emailFailureMessage } ∧
    lifeHandleAnalyze p t =
      { loading := false, result := t.result, error := some lifeFailureMessage } :=
  ⟨emailHandleAnalyze_failure o s ho, lifeHandleAnalyze_failure p t hp⟩

/-- Concrete email-analysis outcomes where one of the five calls
rejected and the other four fulfilled. -/
def oneFailedEmailOutcomes : EmailOutcomes String :=
  { summarize := Except.error "API Error",
    sentiment := Except.ok { sentiment := "positive" },
    priority := Except.ok { priority := "high" },
    actions := Except.ok { action_items := ["follow up"] },
    replies := Except.ok { reply_suggestions := ["Thanks!"] } }

/-- Concrete life-balance outcomes where one of the four calls rejected
and the other three fulfilled. -/
def oneFailedLifeOutcomes : LifeOutcomes String :=
  { scores := Except.error "API Error",
    insights := Except.ok { insights := ["Good work-life balance"] },
    recommendations := Except.ok { recommendations := ["Take more breaks"] },
    optimize := Except.ok { optimized_schedule := "Optimized schedule here" } }

/-- A fresh email page and a fresh life-balance page. -/
def blankEmailPage : EmailPageState := { loading := false, result := none, error := none }

def blankLifePage : LifePageState := { loading := false, result := none, error := none }

/-- Witness for C8 at concrete one-failure batches on fresh pages. -/
theorem batch_failure_single_message_no_partial_witness :
    emailHandleAnalyze oneFailedEmailOutcomes blankEmailPage =
      { loading := false, result := blankEmailPage.result,
        error := some emailFailureMessage } ∧
    lifeHandleAnalyze oneFailedLifeOutcomes blankLifePage =
      { loading := false, result := blankLifePage.result,
        error := some lifeFailureMessage } :=
  batch_failure_single_message_no_partial oneFailedEmailOutcomes oneFailedLifeOutcomes
    blankEmailPage blankLifePage rfl rfl

/-- C10: on a failed analysis action, the stored result state is left
unchanged; a result from an earlier successful analysis is still present
and its block still renders alongside the freshly rendered failure
message. -/
theorem failed_analysis_keeps_stale_result {ε₁ ε₂ : Type}
    (o : EmailOutcomes ε₁) (p : LifeOutcomes ε₂)
    (s : EmailPageState) (t : LifePageState)
    (r0 : EmailAnalysisResult) (r1 : LifeBalanceResult)
    (hs : s.result = some r0) (ht : t.result = some r1)
    (ho : emailAnyFailed o = true) (hp : lifeAnyFailed p = true) :
    ((emailHandleAnalyze o s).result = some r0 ∧
      (emailHandleAnalyze o s).error = some emailFailureMessage ∧
      showsResultBlock (emailHandleAnalyze o s).result = true ∧
      showsErrorBanner (emailHandleAnalyze o s).error = true) ∧
    ((lifeHandleAnalyze p t).result = some r1 ∧
      (lifeHandleAnalyze p t).error = some lifeFailureMessage ∧
      showsResultBlock (lifeHandleAnalyze p t).result = true ∧
      showsErrorBanner (lifeHandleAnalyze p t).error = true) := by
  rw [emailHandleAnalyze_failure o s ho, lifeHandleAnalyze_failure p t hp]
  refine ⟨⟨by simp [hs], rfl, by simp [showsResultBlock, hs], showsErrorBanner_emailMessage⟩,
    ⟨by simp [ht], rfl, by simp [showsResultBlock, ht], showsErrorBanner_lifeMessage⟩⟩

/-- A result rendered by an earlier successful email analysis. -/
def staleEmailResult : EmailAnalysisResult :=
  { summary := "Quarterly report attached", sentiment := "positive", priority := "high",
    action_items := ["review numbers"], reply_suggestions := ["Thanks!"] }

/-- An email page still showing that earlier result. -/
def staleEmailPage : EmailPageState :=
  { loading := false, result := some staleEmailResult, error := none }

/-- A result rendered by an earlier successful life-balance analysis. -/
def staleLifeResult : LifeBalanceResult :=
  { balance_score := (15 : Rat) / 2, insights := ["Good work-life balance"],
    recommendations := ["Take more breaks"], optimized_schedule := "Optimized schedule here" }

/-- A life-balance page still showing that earlier result. -/
def staleLifePage : LifePageState :=
  { loading := false, result := some staleLifeResult, error := none }

/-- Witness for C10 at pages holding an earlier result when a batch with
one rejected call is handled. -/
theorem failed_analysis_keeps_stale_result_witness :
    ((emailHandleAnalyze oneFailedEmailOutcomes staleEmailPage).result = some staleEmailResult ∧
      (emailHandleAnalyze oneFailedEmailOutcomes staleEmailPage).error = some emailFailureMessage ∧
      showsResultBlock (emailHandleAnalyze oneFailedEmailOutcomes staleEmailPage).result = true ∧
      showsErrorBanner (emailHandleAnalyze oneFailedEmailOutcomes staleEmailPage).error = true) ∧
    ((lifeHandleAnalyze oneFailedLifeOutcomes staleLifePage).result = some staleLifeResult ∧
      (lifeHandleAnalyze oneFailedLifeOutcomes staleLifePage).error = some lifeFailureMessage ∧
      showsResultBlock (lifeHandleAnalyze oneFailedLifeOutcomes staleLifePage).result = true ∧
      showsErrorBanner (lifeHandleAnalyze oneFailedLifeOutcomes staleLifePage).error = true) :=
  failed_analysis_keeps_stale_result oneFailedEmailOutcomes oneFailedLifeOutcomes
    staleEmailPage staleLifePage staleEmailResult staleLifeResult rfl rfl rfl rfl


end AiLMS
